import Mathlib

/-!
Shallow embedding of the inserve dispatch engine (handler.ts / server.ts).

The repository wraps an Express-style routing layer with constructor-based
dependency injection.  The embedding below translates, line by line, the
operations the claims talk about:

* Handler.from        -> handlerFrom (adapter from a raw callback)
* Server.attach       -> attach / bindAll / attachPath (path mapping, bind-time
                         eager resolution)
* Server.wrapHandler  -> wrapHandlerBind (bind-time part) and wrapInvoke
                         (per-request part, a single invocation of the
                         returned async closure)
* Server.listen       -> listenTrace

Asynchronous effects are made explicit: a single invocation of the dispatch
wrapper is deterministic sequential code with suspension points, so it is
embedded as a pure function that also returns the ordered list of external
effects it performed (resolution calls, console.error, the one-tick yield,
the call to next, scope creation and forwarding).  The Express response object
is embedded as a record carrying statusCode (default 200), the body written by
send, and the headersSent flag that send sets.  Double-send behaviour of the
transport itself is an external collaborator concern and is modelled as
last-write-wins on the record.
-/

namespace Inserve

/-- A thrown JavaScript value, as far as the code inspects it:
an Error-like object with a message property, a bare non-nullish value
(for example a thrown string), or a nullish value. -/
inductive JSErr
  | withMessage (msg : String)
  | plain (s : String)
  | nullish
deriving DecidableEq

/-- Embedding of the expression err?.message ?? err ?? fallback used on the
lazy resolution failure path of Server.wrapHandler. -/
def errToMessage : JSErr → String → String
  | .withMessage m, _ => m
  | .plain s, _ => s
  | .nullish, fb => fb

/-- The fallback text of the template literal on the resolution failure path;
h stands for the handler-class reference being resolved. -/
def resolveFallbackMsg (h : Nat) : String :=
  "Error resolving handler: " ++ toString h

/-- The Express response object, restricted to the parts the code touches:
res.status, res.send, res.headersSent.  A fresh response has statusCode 200,
no body, headers not sent. -/
structure Response where
  statusCode : Nat
  body : Option String
  headersSent : Bool
deriving DecidableEq

/-- res.status(c): sets the status code, returns the response for chaining. -/
def Response.status (r : Response) (c : Nat) : Response :=
  { r with statusCode := c }

/-- res.send(s): writes the body and marks the headers as sent. -/
def Response.send (r : Response) (s : String) : Response :=
  { r with body := some s, headersSent := true }

/-- A response object as Express hands it to the first callback. -/
def freshResponse : Response :=
  { statusCode := 200, body := none, headersSent := false }

/-- A request is identified by an id; the dispatch engine never inspects its
contents, it only forwards it. -/
abbrev Req := Nat

/-- A Handler Capability: the handle operation may mutate the response and
either complete (synchronously, or as a promise that resolves) or fail
(a synchronous throw, or a promise that rejects).  The awaited outcome is
the pair of the response state it produced and the optional error. -/
structure HandlerCap where
  run : Req → Response → Response × Option JSErr

/-- An injection scope (tsyringe DependencyContainer): the dispatch engine
only ever creates child scopes, so the tree structure is what matters. -/
inductive Scope
  | root
  | child (parent : Scope)
deriving DecidableEq

/-- What container.resolve can produce for a handler-class reference bound on
a Server: a Handler Capability instance or a nested Server (Mount Point),
the latter identified by an id. -/
inductive Instance
  | handler (hc : HandlerCap)
  | server (sid : Nat)

/-- The externally observable effects of one invocation of the dispatch
wrapper, in order. -/
inductive Event
  | resolveCall
  | logError (e : JSErr)
  | yieldTick
  | callNext
  | createChildScope (parent : Scope)
  | assignScope (sid : Nat) (sc : Scope)
  | forward (sid : Nat) (req : Nat)
deriving DecidableEq

/-- Result of one invocation of the dispatch wrapper: the cache slot after the
invocation, the response state, and the ordered effect trace. -/
structure InvokeResult where
  cache : Option Instance
  res : Response
  events : List Event

/-- The branch of Server.wrapHandler that runs once the instance is known:
a nested Server gets a fresh child scope assigned and the request, response
and continuation are forwarded into it, with no further action; a Handler
Capability is invoked inside try/catch (a thrown or rejected error is
contained as status 500 with a generic body plus a console.error), then the
wrapper yields one tick and calls next exactly when the headers are still
unsent. -/
def dispatch (inst : Instance) (scope : Scope) (req : Req) (res : Response)
    (evs0 : List Event) : InvokeResult :=
  match inst with
  | .server sid =>
      ⟨some inst, res,
        evs0 ++ [.createChildScope scope, .assignScope sid (.child scope),
          .forward sid req]⟩
  | .handler hc =>
      let out := hc.run req res
      let contained : Response × List Event :=
        match out.2 with
        | none => (out.1, [])
        | some e => ((out.1.status 500).send "Internal server error",
            [.logError e])
      let evs1 := evs0 ++ contained.2 ++ [.yieldTick]
      if contained.1.headersSent then ⟨some inst, contained.1, evs1⟩
      else ⟨some inst, contained.1, evs1 ++ [.callNext]⟩

/-- One invocation of the async closure returned by Server.wrapHandler.
cache is the closed-over instance slot before the invocation; resv is the
outcome container.resolve would have at this moment (the container is an
external collaborator, so its resolution is a parameter).  On a lazy
resolution failure the error-derived message is sent on the response and the
invocation returns without touching next; the cache slot stays empty. -/
def wrapInvoke (h : Nat) (resv : Except JSErr Instance) (scope : Scope)
    (cache : Option Instance) (req : Req) (res : Response) : InvokeResult :=
  match cache with
  | some inst => dispatch inst scope req res []
  | none =>
    match resv with
    | .error err =>
        ⟨none, res.send (errToMessage err (resolveFallbackMsg h)),
          [.resolveCall]⟩
    | .ok inst => dispatch inst scope req res [.resolveCall]

/-- The path pattern type PathParamsStr of server.ts:
string, RegExp, or an array of strings and RegExps. -/
inductive StrOrRegex
  | str (s : String)
  | regex (r : String)
deriving DecidableEq

/-- A bare path pattern. -/
inductive PathPat
  | str (s : String)
  | regex (r : String)
  | arr (ps : List StrOrRegex)
deriving DecidableEq

/-- The PathParams type of server.ts: a bare pattern, or a configuration
object with a path key and an optional eager key (none when the key is
absent). -/
inductive PathParams
  | bare (p : PathPat)
  | config (path : PathPat) (eager : Option Bool)
deriving DecidableEq

/-- The eager test of Server.wrapHandler:
typeof path is object, the eager key is present, and its value is truthy.
A bare string is not an object; a bare RegExp or array has no eager key. -/
def isEager : PathParams → Bool
  | .config _ (some b) => b
  | _ => false

/-- The path argument Server.attach hands to the Express route table:
a bare string stays itself; an object with a path key yields that path;
anything else (a bare RegExp or array) becomes null, embedded as none. -/
def attachPath : PathParams → Option PathPat
  | .bare (.str s) => some (.str s)
  | .bare _ => none
  | .config p _ => some p

/-- The bind-time part of Server.wrapHandler: with the eager flag the
handler-class reference is resolved immediately through the container, and a
resolution failure is not caught, so it propagates out of the registration
call; otherwise the instance slot starts empty. -/
def wrapHandlerBind (p : PathParams) (resvBind : Except JSErr Instance) :
    Except JSErr (Option Instance) :=
  if isEager p then
    match resvBind with
    | .ok i => .ok (some i)
    | .error e => .error e
  else .ok none

/-- A registration row as the Express route table receives it from
Server.attach: the method, the path argument, and the initial instance-cache
slot of each wrapped handler. -/
structure Binding where
  method : String
  path : Option PathPat
  caches : List (Option Instance)

/-- handlers.map over wrapHandler at bind time: left to right, the first
uncaught (eager) resolution failure aborts the whole map. -/
def bindAll (p : PathParams) :
    List (Except JSErr Instance) → Except JSErr (List (Option Instance))
  | [] => .ok []
  | rv :: rest =>
    match wrapHandlerBind p rv with
    | .error e => .error e
    | .ok c =>
      match bindAll p rest with
      | .error e => .error e
      | .ok cs => .ok (c :: cs)

/-- Server.attach: maps the path through attachPath, wraps every handler,
and registers the row on the route table.  Each element of hs is the outcome
container.resolve would have for that handler-class reference at bind time. -/
def attach (method : String) (p : PathParams)
    (hs : List (Except JSErr Instance)) : Except JSErr Binding :=
  match bindAll p hs with
  | .error e => .error e
  | .ok caches => .ok ⟨method, attachPath p, caches⟩

/-- Server.get delegates to attach with the literal method name. -/
def Server.get (p : PathParams) (hs : List (Except JSErr Instance)) :
    Except JSErr Binding :=
  attach "get" p hs

/-- Server.post delegates to attach with the literal method name. -/
def Server.post (p : PathParams) (hs : List (Except JSErr Instance)) :
    Except JSErr Binding :=
  attach "post" p hs

/-- Server.use delegates to attach with the literal method name. -/
def Server.use (p : PathParams) (hs : List (Except JSErr Instance)) :
    Except JSErr Binding :=
  attach "use" p hs

/-- The effective instance an invocation runs with: the cached one if the
slot is populated, otherwise whatever resolution yields at this moment. -/
def resolvedOf (cache : Option Instance) (resv : Except JSErr Instance) :
    Option Instance :=
  match cache with
  | some i => some i
  | none =>
    match resv with
    | .ok i => some i
    | .error _ => none

/-- The ordered observable steps of Server.listen. -/
inductive ListenEvent
  | startListen
  | registerToken
  | bound
  | promiseResolve
  | errorEvt (e : JSErr)
  | promiseReject (e : JSErr)
deriving DecidableEq

/-- Server.listen: synchronously it starts the transport (which returns the
live handle at once, before binding completes) and registers that handle
under HTTP_SERVER_TOKEN on the container; then, asynchronously, either the
transport binds and the listening callback resolves the returned promise, or
the bind fails with an error event which rejects it.  bindResult is none when
binding succeeds and carries the bind error otherwise. -/
def listenTrace (bindResult : Option JSErr) : List ListenEvent :=
  [.startListen, .registerToken] ++
    match bindResult with
    | none => [.bound, .promiseResolve]
    | some e => [.errorEvt e, .promiseReject e]

/-- How a raw Express callback behaves on one call: it may mutate the
response and then return normally (having invoked the continuation-signal
or not), throw synchronously before or after having invoked the signal, or
return normally while its asynchronous continuation later fails with an
error e, the signal having been invoked (calledSignal) or not by the time
the failure settles. -/
inductive RawOutcome
  | completes (calledSignal : Bool)
  | throwsAfterSignal (e : JSErr)
  | throwsBeforeSignal (e : JSErr)
  | failsAsync (e : JSErr) (calledSignal : Bool)
deriving DecidableEq

/-- A raw three-argument Express callback (request, response,
continuation-signal), summarised by its response effect and its outcome. -/
structure RawHandler where
  run : Req → Response → Response × RawOutcome

/-- Whether the callback invoked the continuation-signal. -/
def signalInvoked : RawOutcome → Bool
  | .completes b => b
  | .throwsAfterSignal _ => true
  | .throwsBeforeSignal _ => false
  | .failsAsync _ b => b

/-- The state the promise returned by handle settles into. -/
inductive PromiseState
  | resolved
  | rejected (e : JSErr)
  | pending
deriving DecidableEq

/-- Promise executor semantics for
new Promise(fun (resolve, reject) => express_handler(req, res, resolve)):
the first settling wins, so a call of the signal resolves the promise; a
synchronous throw before any signal rejects it with the untranslated error;
a throw after the signal finds the promise already resolved and is
swallowed; and because the executor discards the value the callback
returns, an asynchronous failure of the callback never settles the promise,
which stays pending unless the signal was invoked; with no signal and no
failure at all it likewise stays pending. -/
def promiseOf : RawOutcome → PromiseState
  | .completes true => .resolved
  | .completes false => .pending
  | .throwsAfterSignal _ => .resolved
  | .throwsBeforeSignal e => .rejected e
  | .failsAsync _ true => .resolved
  | .failsAsync _ false => .pending

/-- Handler.from: the handle operation of the generated class invokes the raw
callback on the request and response with the promise resolver as the
continuation-signal, and returns that promise. -/
def handlerFrom (f : RawHandler) (req : Req) (res : Response) :
    Response × PromiseState :=
  let out := f.run req res
  (out.1, promiseOf out.2)

/-- A handler that completes without writing to the response. -/
def noopCap : HandlerCap :=
  ⟨fun _ r => (r, none)⟩

/-- A handler that sends a body (finalising the response) and completes. -/
def sendCap : HandlerCap :=
  ⟨fun _ r => (r.send "hello", none)⟩

/-- A handler whose handle operation throws without touching the response. -/
def throwCap : HandlerCap :=
  ⟨fun _ r => (r, some (.withMessage "boom"))⟩

/-- A raw callback that throws before invoking the continuation-signal. -/
def rawThrower : RawHandler :=
  ⟨fun _ r => (r, .throwsBeforeSignal (.withMessage "boom"))⟩

/-- A raw callback that invokes the continuation-signal and then throws. -/
def rawLateThrower : RawHandler :=
  ⟨fun _ r => (r, .throwsAfterSignal (.withMessage "boom"))⟩

/-- A raw callback that returns synchronously without invoking the signal
and whose asynchronous completion later rejects. -/
def rawAsyncFail : RawHandler :=
  ⟨fun _ r => (r, .failsAsync (.withMessage "late") false)⟩

/-! Helper lemmas about the shape of a dispatch on a Handler Capability. -/

/-- Closed form of the handler branch of dispatch. -/
theorem dispatch_handler_eq (hc : HandlerCap) (scope : Scope) (req : Req)
    (res : Response) (evs0 : List Event) :
    dispatch (Instance.handler hc) scope req res evs0 =
      match (hc.run req res).2 with
      | none =>
        if (hc.run req res).1.headersSent
        then ⟨some (Instance.handler hc), (hc.run req res).1,
          evs0 ++ [Event.yieldTick]⟩
        else ⟨some (Instance.handler hc), (hc.run req res).1,
          evs0 ++ [Event.yieldTick, Event.callNext]⟩
      | some e =>
        ⟨some (Instance.handler hc),
          ((hc.run req res).1.status 500).send "Internal server error",
          evs0 ++ [Event.logError e, Event.yieldTick]⟩ := by
  unfold dispatch
  rcases hout : hc.run req res with ⟨res1, errOpt⟩
  cases errOpt <;> simp [hout, Response.send]

/-- A wrapper invocation whose effective instance is known is a dispatch on
that instance, with at most a resolution call in front. -/
theorem wrapInvoke_resolved_eq (h : Nat) (resv : Except JSErr Instance)
    (scope : Scope) (cache : Option Instance) (req : Req) (res : Response)
    (inst : Instance) (hres : resolvedOf cache resv = some inst) :
    ∃ evs0 : List Event, (evs0 = [] ∨ evs0 = [Event.resolveCall]) ∧
      wrapInvoke h resv scope cache req res =
        dispatch inst scope req res evs0 := by
  cases cache with
  | some i =>
      have hi : i = inst := by simpa [resolvedOf] using hres
      subst hi
      exact ⟨[], Or.inl rfl, rfl⟩
  | none =>
      cases resv with
      | ok i =>
          have hi : i = inst := by simpa [resolvedOf] using hres
          subst hi
          exact ⟨[Event.resolveCall], Or.inr rfl, rfl⟩
      | error e => simp [resolvedOf] at hres

/-- A dispatch always populates the cache slot with the instance it ran. -/
theorem dispatch_cache (inst : Instance) (scope : Scope) (req : Req)
    (res : Response) (evs0 : List Event) :
    (dispatch inst scope req res evs0).cache = some inst := by
  cases inst with
  | server sid => rfl
  | handler hc =>
      rw [dispatch_handler_eq]
      rcases (hc.run req res).2 with _ | e
      · by_cases hhs : (hc.run req res).1.headersSent <;> simp [hhs]
      · rfl

/-- A dispatch only appends to the incoming event prefix. -/
theorem dispatch_events_prefix (inst : Instance) (scope : Scope) (req : Req)
    (res : Response) (evs0 : List Event) :
    ∃ tail : List Event,
      (dispatch inst scope req res evs0).events = evs0 ++ tail := by
  cases inst with
  | server sid => exact ⟨_, rfl⟩
  | handler hc =>
      rw [dispatch_handler_eq]
      rcases (hc.run req res).2 with _ | e
      · by_cases hhs : (hc.run req res).1.headersSent <;> simp [hhs]
      · exact ⟨_, rfl⟩

/-- A dispatch never performs a resolution call of its own. -/
theorem dispatch_no_resolve (inst : Instance) (scope : Scope) (req : Req)
    (res : Response) (evs0 : List Event)
    (h0 : Event.resolveCall ∉ evs0) :
    Event.resolveCall ∉ (dispatch inst scope req res evs0).events := by
  cases inst with
  | server sid => simp [dispatch, h0]
  | handler hc =>
      rw [dispatch_handler_eq]
      rcases (hc.run req res).2 with _ | e
      · by_cases hhs : (hc.run req res).1.headersSent <;> simp [hhs, h0]
      · simp [h0]

/-- C1: for every invocation of the dispatch wrapper whose resolved instance
is a Handler Capability, after the handle operation completes (or its error
was contained) the wrapper yields exactly one scheduler tick and then checks
the response: next is invoked exactly once when the response has not been
finalised, and not at all when it has, with nothing after that decision. -/
theorem wrapInvoke_handler_continuation (h : Nat)
    (resv : Except JSErr Instance) (scope : Scope) (cache : Option Instance)
    (req : Req) (res : Response) (hc : HandlerCap)
    (hres : resolvedOf cache resv = some (Instance.handler hc)) :
    ((wrapInvoke h resv scope cache req res).events.count Event.yieldTick
      = 1) ∧
    ((wrapInvoke h resv scope cache req res).events.count Event.callNext =
      if (wrapInvoke h resv scope cache req res).res.headersSent then 0
      else 1) ∧
    (∃ pre : List Event, (wrapInvoke h resv scope cache req res).events =
      pre ++ (if (wrapInvoke h resv scope cache req res).res.headersSent
        then [Event.yieldTick] else [Event.yieldTick, Event.callNext])) := by
  obtain ⟨evs0, hevs0, heq⟩ :=
    wrapInvoke_resolved_eq h resv scope cache req res (Instance.handler hc)
      hres
  have h1 : evs0.count Event.yieldTick = 0 := by
    rcases hevs0 with h0 | h0 <;> subst h0 <;> decide
  have h2 : evs0.count Event.callNext = 0 := by
    rcases hevs0 with h0 | h0 <;> subst h0 <;> decide
  rw [heq, dispatch_handler_eq]
  rcases hout : (hc.run req res).2 with _ | e
  · cases hhs : (hc.run req res).1.headersSent with
    | true =>
        refine ⟨?_, ?_, ⟨evs0, ?_⟩⟩ <;>
          simp [hhs, List.count_append, h1, h2]
    | false =>
        refine ⟨?_, ?_, ⟨evs0, ?_⟩⟩ <;>
          simp [hhs, List.count_append, h1, h2]
  · refine ⟨?_, ?_, ⟨evs0 ++ [Event.logError e], ?_⟩⟩ <;>
      simp [Response.send, List.count_append, h1, h2]

/-- Witness for C1 at a concrete input: a cached handler that finalises the
response; the invocation yields exactly one tick. -/
theorem wrapInvoke_handler_continuation_witness :
    resolvedOf (some (Instance.handler sendCap))
        (Except.ok (Instance.handler sendCap))
      = some (Instance.handler sendCap) ∧
    (wrapInvoke 0 (Except.ok (Instance.handler sendCap)) Scope.root
        (some (Instance.handler sendCap)) 0 freshResponse).events.count
        Event.yieldTick = 1 :=
  ⟨rfl, (wrapInvoke_handler_continuation 0 (Except.ok (Instance.handler
    sendCap)) Scope.root (some (Instance.handler sendCap)) 0 freshResponse
    sendCap rfl).1⟩

/-- C2: when the handle operation of the resolved Handler Capability throws
or its promise rejects, the wrapper contains the error: the response becomes
status 500 with the generic body, which never carries the error message; the
error goes to the observability sink (console.error); the invocation itself
returns normally, so nothing propagates up the chain; and next is not
invoked afterwards. -/
theorem wrapInvoke_handler_error_contained (h : Nat)
    (resv : Except JSErr Instance) (scope : Scope) (cache : Option Instance)
    (req : Req) (res : Response) (hc : HandlerCap) (res1 : Response)
    (e : JSErr)
    (hres : resolvedOf cache resv = some (Instance.handler hc))
    (hrun : hc.run req res = (res1, some e)) :
    ((wrapInvoke h resv scope cache req res).res =
      (res1.status 500).send "Internal server error") ∧
    ((wrapInvoke h resv scope cache req res).res.statusCode = 500) ∧
    ((wrapInvoke h resv scope cache req res).res.body =
      some "Internal server error") ∧
    (Event.logError e ∈ (wrapInvoke h resv scope cache req res).events) ∧
    (Event.callNext ∉ (wrapInvoke h resv scope cache req res).events) := by
  obtain ⟨evs0, hevs0, heq⟩ :=
    wrapInvoke_resolved_eq h resv scope cache req res (Instance.handler hc)
      hres
  rw [heq, dispatch_handler_eq, hrun]
  rcases hevs0 with h0 | h0 <;> subst h0 <;>
    simp [Response.send, Response.status]

/-- Witness for C2 at a concrete input: a cached throwing handler yields the
500 status. -/
theorem wrapInvoke_handler_error_contained_witness :
    resolvedOf (some (Instance.handler throwCap))
        (Except.ok (Instance.handler throwCap))
      = some (Instance.handler throwCap) ∧
    throwCap.run 0 freshResponse =
      (freshResponse, some (JSErr.withMessage "boom")) ∧
    (wrapInvoke 0 (Except.ok (Instance.handler throwCap)) Scope.root
      (some (Instance.handler throwCap)) 0 freshResponse).res.statusCode
      = 500 :=
  ⟨rfl, rfl, (wrapInvoke_handler_error_contained 0
    (Except.ok (Instance.handler throwCap)) Scope.root
    (some (Instance.handler throwCap)) 0 freshResponse throwCap
    freshResponse (JSErr.withMessage "boom") rfl rfl).2.1⟩

/-- C3 amended: a lazy resolution failure sends the error-derived message on
the response (the message of the error, the error value itself, or the
fallback text, following errToMessage), does not invoke next for that
request, and leaves the cache slot empty, so the failure is not cached: any
subsequent matching request performs a fresh resolution call. -/
theorem wrapInvoke_lazy_resolution_failure (h : Nat) (e : JSErr)
    (scope scope2 : Scope) (req req2 : Req) (res res2 : Response)
    (resv2 : Except JSErr Instance) :
    ((wrapInvoke h (Except.error e) scope none req res).res =
      res.send (errToMessage e (resolveFallbackMsg h))) ∧
    (Event.callNext ∉
      (wrapInvoke h (Except.error e) scope none req res).events) ∧
    ((wrapInvoke h (Except.error e) scope none req res).cache = none) ∧
    (Event.resolveCall ∈ (wrapInvoke h resv2 scope2
      (wrapInvoke h (Except.error e) scope none req res).cache
      req2 res2).events) := by
  refine ⟨rfl, by simp [wrapInvoke], rfl, ?_⟩
  show Event.resolveCall ∈ (wrapInvoke h resv2 scope2 none req2 res2).events
  cases resv2 with
  | error e2 => simp [wrapInvoke]
  | ok inst =>
      obtain ⟨tail, htail⟩ :=
        dispatch_events_prefix inst scope2 req2 res2 [Event.resolveCall]
      show Event.resolveCall ∈
        (dispatch inst scope2 req2 res2 [Event.resolveCall]).events
      rw [htail]
      simp

/-- Counterexample for C3 as stated: after a failed lazy resolution, the very
next matching request attempts resolution again (and here succeeds), so the
failed resolution is retried rather than never retried. -/
theorem lazy_resolution_retried_counterexample :
    ((wrapInvoke 0 (Except.error (JSErr.withMessage "no provider"))
      Scope.root none 0 freshResponse).res.body = some "no provider") ∧
    ((wrapInvoke 0 (Except.error (JSErr.withMessage "no provider"))
      Scope.root none 0 freshResponse).cache = none) ∧
    (Event.resolveCall ∈ (wrapInvoke 0 (Except.ok (Instance.handler noopCap))
      Scope.root
      (wrapInvoke 0 (Except.error (JSErr.withMessage "no provider"))
        Scope.root none 0 freshResponse).cache
      0 freshResponse).events) := by
  refine ⟨rfl, rfl, ?_⟩
  decide

/-- C10: a lazy resolution failure is sent without touching the status code,
so a fresh response keeps the default status 200 with the error text as
body, whereas a handler execution failure explicitly sets status 500. -/
theorem lazy_failure_default_status (h : Nat) (e : JSErr) (scope : Scope)
    (req : Req) (hc : HandlerCap) (res1 : Response) (e2 : JSErr)
    (hrun : hc.run req freshResponse = (res1, some e2)) :
    ((wrapInvoke h (Except.error e) scope none req
      freshResponse).res.statusCode = 200) ∧
    ((wrapInvoke h (Except.error e) scope none req
      freshResponse).res.headersSent = true) ∧
    ((wrapInvoke h (Except.error e) scope none req freshResponse).res.body =
      some (errToMessage e (resolveFallbackMsg h))) ∧
    ((wrapInvoke h (Except.ok (Instance.handler hc)) scope none req
      freshResponse).res.statusCode = 500) := by
  refine ⟨rfl, rfl, rfl, ?_⟩
  obtain ⟨evs0, hevs0, heq⟩ := wrapInvoke_resolved_eq h
    (Except.ok (Instance.handler hc)) scope none req freshResponse
    (Instance.handler hc) rfl
  rw [heq, dispatch_handler_eq, hrun]
  simp [Response.send, Response.status]

/-- Witness for C10 at a concrete input: a nullish thrown error falls back to
the template text, status stays 200; the throwing handler gets 500. -/
theorem lazy_failure_default_status_witness :
    throwCap.run 3 freshResponse =
      (freshResponse, some (JSErr.withMessage "boom")) ∧
    ((wrapInvoke 7 (Except.error JSErr.nullish) Scope.root none 3
      freshResponse).res.statusCode = 200) ∧
    ((wrapInvoke 7 (Except.error JSErr.nullish) Scope.root none 3
      freshResponse).res.body = some "Error resolving handler: 7") :=
  ⟨rfl, (lazy_failure_default_status 7 JSErr.nullish Scope.root 3 throwCap
      freshResponse (JSErr.withMessage "boom") rfl).1,
    (lazy_failure_default_status 7 JSErr.nullish Scope.root 3 throwCap
      freshResponse (JSErr.withMessage "boom") rfl).2.2.1⟩

/-- C4: with the eager flag the handler-class reference is resolved at bind
time, so every later invocation runs the bind-time instance and performs no
resolution call, whatever the container would resolve to by then; without
the flag nothing is resolved at bind time and the first matching request
resolves through the container as it is at that moment, running and caching
the request-time instance. -/
theorem eager_vs_lazy_resolution (p q : PathParams) (i1 i2 : Instance)
    (h : Nat) (scope : Scope) (req : Req) (res : Response)
    (hp : isEager p = true) (hq : isEager q = false) :
    (wrapHandlerBind p (Except.ok i1) = Except.ok (some i1)) ∧
    (∀ resvReq : Except JSErr Instance,
      (wrapInvoke h resvReq scope (some i1) req res).cache = some i1 ∧
      Event.resolveCall ∉
        (wrapInvoke h resvReq scope (some i1) req res).events) ∧
    (wrapHandlerBind q (Except.ok i1) = Except.ok none) ∧
    ((wrapInvoke h (Except.ok i2) scope none req res).cache = some i2) ∧
    (Event.resolveCall ∈
      (wrapInvoke h (Except.ok i2) scope none req res).events) := by
  refine ⟨by simp [wrapHandlerBind, hp], ?_, by simp [wrapHandlerBind, hq],
    ?_, ?_⟩
  · intro resvReq
    exact ⟨dispatch_cache i1 scope req res [],
      dispatch_no_resolve i1 scope req res [] (by simp)⟩
  · exact dispatch_cache i2 scope req res [Event.resolveCall]
  · obtain ⟨tail, htail⟩ :=
      dispatch_events_prefix i2 scope req res [Event.resolveCall]
    show Event.resolveCall ∈
      (dispatch i2 scope req res [Event.resolveCall]).events
    rw [htail]
    simp

/-- Witness for C4 at a concrete input: an eager configuration object and a
bare lazy path. -/
theorem eager_vs_lazy_resolution_witness :
    isEager (PathParams.config (PathPat.str "/") (some true)) = true ∧
    isEager (PathParams.bare (PathPat.str "/")) = false ∧
    wrapHandlerBind (PathParams.config (PathPat.str "/") (some true))
      (Except.ok (Instance.server 4)) = Except.ok (some (Instance.server 4)) :=
  ⟨rfl, rfl, (eager_vs_lazy_resolution
    (PathParams.config (PathPat.str "/") (some true))
    (PathParams.bare (PathPat.str "/")) (Instance.server 4)
    (Instance.server 5) 0 Scope.root 0 freshResponse rfl rfl).1⟩

/-- C5: when the resolved instance is a nested Mount Point, the wrapper
creates a fresh child scope of the current scope at invocation time, assigns
it to the nested server, forwards the request (together with the response
and the continuation-signal) into its dispatch machinery, and does nothing
afterwards: the trace ends at the forward step, the wrapper leaves the
response untouched and performs no tick and no next call of its own. -/
theorem wrapInvoke_server_forward (h : Nat) (resv : Except JSErr Instance)
    (scope : Scope) (cache : Option Instance) (req : Req) (res : Response)
    (sid : Nat)
    (hres : resolvedOf cache resv = some (Instance.server sid)) :
    ∃ evs0 : List Event, (evs0 = [] ∨ evs0 = [Event.resolveCall]) ∧
      ((wrapInvoke h resv scope cache req res).events = evs0 ++
        [Event.createChildScope scope,
          Event.assignScope sid (Scope.child scope),
          Event.forward sid req]) ∧
      ((wrapInvoke h resv scope cache req res).res = res) ∧
      (Event.yieldTick ∉ (wrapInvoke h resv scope cache req res).events) ∧
      (Event.callNext ∉ (wrapInvoke h resv scope cache req res).events) := by
  obtain ⟨evs0, hevs0, heq⟩ :=
    wrapInvoke_resolved_eq h resv scope cache req res (Instance.server sid)
      hres
  refine ⟨evs0, hevs0, ?_, ?_, ?_, ?_⟩ <;> rw [heq] <;>
    rcases hevs0 with h0 | h0 <;> subst h0 <;> simp [dispatch]

/-- Witness for C5 at a concrete input: a cached nested server. -/
theorem wrapInvoke_server_forward_witness :
    resolvedOf (some (Instance.server 9)) (Except.ok (Instance.server 9))
      = some (Instance.server 9) ∧
    (∃ evs0 : List Event, (evs0 = [] ∨ evs0 = [Event.resolveCall]) ∧
      ((wrapInvoke 0 (Except.ok (Instance.server 9)) Scope.root
        (some (Instance.server 9)) 2 freshResponse).events = evs0 ++
        [Event.createChildScope Scope.root,
          Event.assignScope 9 (Scope.child Scope.root),
          Event.forward 9 2]) ∧
      ((wrapInvoke 0 (Except.ok (Instance.server 9)) Scope.root
        (some (Instance.server 9)) 2 freshResponse).res = freshResponse) ∧
      (Event.yieldTick ∉ (wrapInvoke 0 (Except.ok (Instance.server 9))
        Scope.root (some (Instance.server 9)) 2 freshResponse).events) ∧
      (Event.callNext ∉ (wrapInvoke 0 (Except.ok (Instance.server 9))
        Scope.root (some (Instance.server 9)) 2 freshResponse).events)) :=
  ⟨rfl, wrapInvoke_server_forward 0 (Except.ok (Instance.server 9))
    Scope.root (some (Instance.server 9)) 2 freshResponse 9 rfl⟩

/-- Counterexample for C6 as stated: errors raised by the raw callback do
not in general propagate to the caller of handle.  A callback that throws
after invoking the continuation-signal has its error swallowed (the promise
is already resolved), and a callback whose asynchronous completion rejects
never settles the promise at all, because the executor discards the value
the callback returns: the caller is left pending, with no rejection. -/
theorem handlerFrom_error_swallowed_counterexample :
    (rawLateThrower.run 0 freshResponse =
      (freshResponse, RawOutcome.throwsAfterSignal
        (JSErr.withMessage "boom"))) ∧
    ((handlerFrom rawLateThrower 0 freshResponse).2 =
      PromiseState.resolved) ∧
    (rawAsyncFail.run 0 freshResponse =
      (freshResponse, RawOutcome.failsAsync (JSErr.withMessage "late")
        false)) ∧
    ((handlerFrom rawAsyncFail 0 freshResponse).2 =
      PromiseState.pending) :=
  ⟨rfl, rfl, rfl, rfl⟩

/-- C6 amended: the Handler Capability generated by Handler.from invokes
the raw callback on the request and response with the promise resolver as
the continuation-signal, and the returned promise resolves exactly when the
callback invoked the signal.  No error translation occurs in the adapter,
and the promise is rejected with e exactly when the callback threw e
synchronously before invoking the signal: only those errors reach the
caller of handle, untranslated.  An error raised after the signal is
swallowed (the promise is already resolved), and an asynchronous failure of
the callback never settles the promise, which stays pending when the signal
was not invoked. -/
theorem handlerFrom_adapter (f : RawHandler) (req : Req) (res : Response) :
    ((handlerFrom f req res).1 = (f.run req res).1) ∧
    ((handlerFrom f req res).2 = PromiseState.resolved ↔
      signalInvoked (f.run req res).2 = true) ∧
    (∀ e : JSErr, ((handlerFrom f req res).2 = PromiseState.rejected e ↔
      (f.run req res).2 = RawOutcome.throwsBeforeSignal e)) ∧
    (∀ e : JSErr, (f.run req res).2 = RawOutcome.throwsAfterSignal e →
      (handlerFrom f req res).2 = PromiseState.resolved) ∧
    (∀ e : JSErr, (f.run req res).2 = RawOutcome.failsAsync e false →
      (handlerFrom f req res).2 = PromiseState.pending) := by
  refine ⟨rfl, ?_, ?_, ?_, ?_⟩
  · show promiseOf (f.run req res).2 = PromiseState.resolved ↔
      signalInvoked (f.run req res).2 = true
    cases hout : (f.run req res).2 with
    | completes b => cases b <;> simp [promiseOf, signalInvoked]
    | throwsAfterSignal e => simp [promiseOf, signalInvoked]
    | throwsBeforeSignal e => simp [promiseOf, signalInvoked]
    | failsAsync e b => cases b <;> simp [promiseOf, signalInvoked]
  · intro e
    show promiseOf (f.run req res).2 = PromiseState.rejected e ↔
      (f.run req res).2 = RawOutcome.throwsBeforeSignal e
    cases hout : (f.run req res).2 with
    | completes b => cases b <;> simp [promiseOf]
    | throwsAfterSignal e2 => simp [promiseOf]
    | throwsBeforeSignal e2 => simp [promiseOf]
    | failsAsync e2 b => cases b <;> simp [promiseOf]
  · intro e he
    show promiseOf (f.run req res).2 = PromiseState.resolved
    rw [he]
    rfl
  · intro e he
    show promiseOf (f.run req res).2 = PromiseState.pending
    rw [he]
    rfl

/-- Witness for the amended C6 at a concrete input: a raw callback that
throws before invoking the signal rejects the handle promise with exactly
that error. -/
theorem handlerFrom_adapter_witness :
    rawThrower.run 0 freshResponse =
      (freshResponse, RawOutcome.throwsBeforeSignal
        (JSErr.withMessage "boom")) ∧
    (handlerFrom rawThrower 0 freshResponse).2 =
      PromiseState.rejected (JSErr.withMessage "boom") :=
  ⟨rfl, ((handlerFrom_adapter rawThrower 0 freshResponse).2.2.1
    (JSErr.withMessage "boom")).mpr rfl⟩

/-- C7 amended: listen publishes the transport handle under
HTTP_SERVER_TOKEN synchronously during the listen call itself, right after
starting the transport and before the transport is bound, and it does so
even when binding fails; the returned completion signal resolves exactly
when the transport becomes bound and is accepting connections, and only
after that point. -/
theorem listen_publish_timing (b : Option JSErr) :
    ((listenTrace b).take 2 =
      [ListenEvent.startListen, ListenEvent.registerToken]) ∧
    (ListenEvent.registerToken ∈ listenTrace b) ∧
    (ListenEvent.promiseResolve ∈ listenTrace b ↔ b = none) ∧
    (ListenEvent.bound ∈ listenTrace b ↔ b = none) ∧
    (listenTrace none = [ListenEvent.startListen, ListenEvent.registerToken,
      ListenEvent.bound, ListenEvent.promiseResolve]) := by
  cases b <;> simp [listenTrace]

/-- Counterexample for C7 as stated: with a failing bind the handle is still
registered under the token, although the transport never bound, so the
handle becomes resolvable before binding has succeeded. -/
theorem listen_publish_before_bound_counterexample :
    ListenEvent.registerToken ∈
      listenTrace (some (JSErr.plain "EADDRINUSE")) ∧
    ListenEvent.bound ∉ listenTrace (some (JSErr.plain "EADDRINUSE")) := by
  decide

/-- With no eager flag, bind-time wrapping never resolves: every cache slot
starts empty. -/
theorem bindAll_lazy (p : PathParams) (hp : isEager p = false)
    (hs : List (Except JSErr Instance)) :
    bindAll p hs = Except.ok (hs.map fun _ => none) := by
  induction hs with
  | nil => rfl
  | cons rv rest ih => simp [bindAll, wrapHandlerBind, hp, ih]

/-- C8: a registration whose path is a bare RegExp or a bare array is passed
to the route table with null as the path argument, although the public
registration API accepts those patterns; a bare pattern also carries no
eager flag, so the registration itself succeeds with empty cache slots. -/
theorem attach_bare_nonstring_null (r : String) (ps : List StrOrRegex)
    (hs : List (Except JSErr Instance)) :
    (attachPath (PathParams.bare (PathPat.regex r)) = none) ∧
    (attachPath (PathParams.bare (PathPat.arr ps)) = none) ∧
    (attach "get" (PathParams.bare (PathPat.regex r)) hs =
      Except.ok ⟨"get", none, hs.map fun _ => none⟩) ∧
    (attach "get" (PathParams.bare (PathPat.arr ps)) hs =
      Except.ok ⟨"get", none, hs.map fun _ => none⟩) := by
  refine ⟨rfl, rfl, ?_, ?_⟩
  · have hb := bindAll_lazy (PathParams.bare (PathPat.regex r)) rfl hs
    simp [attach, hb, attachPath]
  · have hb := bindAll_lazy (PathParams.bare (PathPat.arr ps)) rfl hs
    simp [attach, hb, attachPath]

/-- C9: an eager resolution failure is not caught: the registration call
itself (here Server.get, which delegates to attach) yields the resolution
error instead of a route binding, so the failure surfaces synchronously at
bind time and no response ever receives an error-derived message on this
path. -/
theorem eager_failure_propagates (p : PathParams) (e : JSErr)
    (hs : List (Except JSErr Instance)) (hp : isEager p = true) :
    (wrapHandlerBind p (Except.error e) = Except.error e) ∧
    (Server.get p (Except.error e :: hs) = Except.error e) := by
  constructor
  · simp [wrapHandlerBind, hp]
  · simp [Server.get, attach, bindAll, wrapHandlerBind, hp]

/-- Witness for C9 at a concrete input: an eager configuration with a
failing resolution aborts the registration call with that error. -/
theorem eager_failure_propagates_witness :
    isEager (PathParams.config (PathPat.str "/") (some true)) = true ∧
    Server.get (PathParams.config (PathPat.str "/") (some true))
      [Except.error (JSErr.withMessage "unregistered dependency")] =
      Except.error (JSErr.withMessage "unregistered dependency") :=
  ⟨rfl, (eager_failure_propagates
    (PathParams.config (PathPat.str "/") (some true))
    (JSErr.withMessage "unregistered dependency") [] rfl).2⟩

end Inserve
